import Mathlib

/-!
Verification of the drone_activity monitoring dashboard
(`src/drone_monitoring.py`) against its natural-language specification.

The embedding below translates the decision logic of the script:
the cached anomaly loader, the threat-level encoding used by the map
layers, the map-layer construction, and the session-state workflow
(COA execution, the monitoring countdown, and surveillance reveal).
-/

namespace DroneMonitoring

/-! ## Data model

`AnomalyRecord` mirrors one row of `drone_anomaly_actions.csv` with the
columns the dashboard reads: `latitude`, `longitude`, `anomaly_type`,
`threat_level`, `recommended_action`.  Coordinates are opaque to all the
logic verified here (they are copied into layers untouched), so they are
embedded as integers. -/

structure AnomalyRecord where
  latitude : Int
  longitude : Int
  anomaly_type : String
  threat_level : String
  recommended_action : String
deriving DecidableEq, Repr

/-! ## AnomalyStore (`load_drone_anomalies`, line 11-13)

`pd.read_csv(path).head(100)`: the source is embedded as the list of its
rows; `head(100)` is `List.take 100`. -/

def load_cap : Nat := 100

def load_drone_anomalies (rows : List AnomalyRecord) : List AnomalyRecord :=
  rows.take load_cap

/-- Modelled from the spec: the `@st.cache_data` decorator applied to
`load_drone_anomalies` (line 11).  The decorator's implementation is the
UI framework's, not in `src/`; per the spec, repeated calls with the same
source identity return the previously loaded sequence without re-reading
the source, until process restart.  The cache is an association list from
source identity (the path) to the loaded sequence; the filesystem is a
function from path to the rows of the file; the third component of the
result counts how many source reads the call performed. -/
def cached_load (fs : String → List AnomalyRecord)
    (cache : List (String × List AnomalyRecord)) (path : String) :
    List AnomalyRecord × List (String × List AnomalyRecord) × Nat :=
  match cache.lookup path with
  | some v => (v, cache, 0)
  | none =>
      let v := load_drone_anomalies (fs path)
      (v, (path, v) :: cache, 1)

/-! ## ThreatEncoder

Line 25: `threat_level_weights = {"High": 3, "Medium": 2, "Low": 1}`.
Line 26 applies `.map` with this dict, which leaves a missing value (NaN)
for any key not in the dict; the embedding returns `none` there.

Lines 99-104: the scatter color list comprehension, a total function with
a green fallback for anything that is neither "High" nor "Medium". -/

def threat_level_weights (threat_level : String) : Option Nat :=
  if threat_level = "High" then some 3
  else if threat_level = "Medium" then some 2
  else if threat_level = "Low" then some 1
  else none

def get_color (threat_level : String) : String :=
  if threat_level = "High" then "255, 0, 0, 160"
  else if threat_level = "Medium" then "255, 165, 0, 160"
  else "0, 128, 0, 160"

/-- The ThreatEncoder of spec §4.2, written from the spec's words for
comparison with the code: weight and color are defined only on the three
recognized levels and fail (`none`, standing for `UnrecognizedThreatLevel`)
on every other input. -/
def spec_threat_weight (level : String) : Option Nat :=
  if level = "High" then some 3
  else if level = "Medium" then some 2
  else if level = "Low" then some 1
  else none

/-- Spec §4.2 color half of the ThreatEncoder, written from the spec's
words: red for High, orange for Medium, green for Low, failure otherwise. -/
def spec_threat_color (level : String) : Option String :=
  if level = "High" then some "255, 0, 0, 160"
  else if level = "Medium" then some "255, 165, 0, 160"
  else if level = "Low" then some "0, 128, 0, 160"
  else none

/-! ## MapLayerBuilder (lines 84-122)

Heatmap mode keeps every row of `map_data` and attaches the `weight`
column computed on line 26 (an `Option Nat`: `.map` over the dict leaves
NaN, i.e. `none`, on unmapped levels).  Scatter mode keeps every row,
attaches the comprehension color, the fixed radius 1000, and - because the
layer is pickable and the deck tooltip substitutes `anomaly_type`,
`threat_level` and `recommended_action` from the row - the three tooltip
fields. -/

structure HeatPoint where
  position : Int × Int
  weight : Option Nat
deriving DecidableEq, Repr

structure ScatterPoint where
  position : Int × Int
  color : String
  radius : Nat
  anomaly_type : String
  threat_level : String
  recommended_action : String
deriving DecidableEq, Repr

def heatmap_points (records : List AnomalyRecord) : List HeatPoint :=
  records.map fun r =>
    { position := (r.longitude, r.latitude)
      weight := threat_level_weights r.threat_level }

def scatter_points (records : List AnomalyRecord) : List ScatterPoint :=
  records.map fun r =>
    { position := (r.longitude, r.latitude)
      color := get_color r.threat_level
      radius := 1000
      anomaly_type := r.anomaly_type
      threat_level := r.threat_level
      recommended_action := r.recommended_action }

/-! ## WorkflowEngine (session state, lines 44-52, 144-148, 195-219)

The three session-state fields and the handlers that mutate them. -/

structure WorkflowState where
  coa_selected : Option String
  alert_triggered : Bool
  show_surveillance : Bool
deriving DecidableEq, Repr

/-- Session-state initialization (lines 44-52). -/
def initState : WorkflowState :=
  { coa_selected := none, alert_triggered := false, show_surveillance := false }

/-- The `Execute Selected COA` button handler (lines 144-148): records the
chosen COA and resets both flags. -/
def executeCOA (s : WorkflowState) (id : String) : WorkflowState :=
  { s with coa_selected := some id
           alert_triggered := false
           show_surveillance := false }

/-- The `View Surveillance Video` button handler (lines 217-219): guarded
by `alert_triggered`; sets `show_surveillance` when the alert is up,
otherwise nothing happens. -/
def revealSurveillance (s : WorkflowState) : WorkflowState :=
  if s.alert_triggered then { s with show_surveillance := true } else s

/-- Observable actions of one monitoring pass: a countdown tick carrying
the value of `remaining_time`, and the assignment of the alert flag. -/
inductive MonitorAction
  | tick (remaining : Nat)
  | setAlert
deriving DecidableEq, Repr

def MonitorAction.isTick : MonitorAction → Bool
  | .tick _ => true
  | .setAlert => false

def MonitorAction.isSetAlert : MonitorAction → Bool
  | .tick _ => false
  | .setAlert => true

/-- Python `range(10, 0, -1)` on line 207: the values 10 down to 1. -/
def countdown_times : List Nat :=
  (List.range 10).map fun i => 10 - i

/-- The monitoring section (lines 195-215): runs only when a COA is
selected; iterates the countdown (one tick per unit of time), then sets
`alert_triggered := true`.  Returns the new state together with the trace
of observable actions in order. -/
def monitoring_pass (s : WorkflowState) : WorkflowState × List MonitorAction :=
  if s.coa_selected.isSome then
    ({ s with alert_triggered := true },
      countdown_times.map MonitorAction.tick ++ [MonitorAction.setAlert])
  else
    (s, [])

/-- The operator/timer events that can change the workflow state. -/
inductive Event
  | exec (id : String)
  | monitorRun
  | reveal
deriving DecidableEq, Repr

def step (s : WorkflowState) : Event → WorkflowState
  | .exec id => executeCOA s id
  | .monitorRun => (monitoring_pass s).1
  | .reveal => revealSurveillance s

/-- A session: the initial state driven by a sequence of events. -/
def run (es : List Event) : WorkflowState :=
  es.foldl step initState

end DroneMonitoring

namespace DroneMonitoring

/-! ## Claims -/

/-- C1: for every workflow state, `executeCOA id` records `id` as the
selected COA and resets both `alert_triggered` and `show_surveillance` to
false; the resulting state depends only on `id`, so there is no carry-over
of prior alert state. -/
theorem executeCOA_full_reset (s : WorkflowState) (id : String) :
    (executeCOA s id).coa_selected = some id ∧
    (executeCOA s id).alert_triggered = false ∧
    (executeCOA s id).show_surveillance = false ∧
    ∀ t : WorkflowState, executeCOA s id = executeCOA t id := by
  refine ⟨rfl, rfl, rfl, fun t => rfl⟩

/-- C2: whenever a COA is selected, a monitoring pass emits exactly 10
countdown ticks, then the alert transition fires - unconditionally, with
no further guard on the rest of the state - and the `setAlert` action is
the last action of the trace (at timeout) and occurs exactly once;
afterwards `alert_triggered` is true. -/
theorem monitoring_pass_countdown (s : WorkflowState)
    (h : s.coa_selected.isSome = true) :
    ((monitoring_pass s).2.filter MonitorAction.isTick).length = 10 ∧
    ((monitoring_pass s).2.filter MonitorAction.isSetAlert).length = 1 ∧
    (monitoring_pass s).2.getLast? = some MonitorAction.setAlert ∧
    ((monitoring_pass s).2.map MonitorAction.isTick) =
      List.replicate 10 true ++ [false] ∧
    (monitoring_pass s).1.alert_triggered = true := by
  simp only [monitoring_pass, h, if_true]
  refine ⟨by decide, by decide, by decide, by decide, trivial⟩

theorem monitoring_pass_countdown_witness :
    (executeCOA initState "COA 1").coa_selected.isSome = true ∧
    (((monitoring_pass (executeCOA initState "COA 1")).2.filter
        MonitorAction.isTick).length = 10 ∧
      ((monitoring_pass (executeCOA initState "COA 1")).2.filter
        MonitorAction.isSetAlert).length = 1 ∧
      (monitoring_pass (executeCOA initState "COA 1")).2.getLast? =
        some MonitorAction.setAlert ∧
      ((monitoring_pass (executeCOA initState "COA 1")).2.map
        MonitorAction.isTick) = List.replicate 10 true ++ [false] ∧
      (monitoring_pass (executeCOA initState "COA 1")).1.alert_triggered = true) :=
  ⟨by decide, monitoring_pass_countdown (executeCOA initState "COA 1") (by decide)⟩

/-- `show_surveillance` implies `alert_triggered`, preserved by every
event: `executeCOA` clears both flags, a monitoring pass only raises the
alert, and `revealSurveillance` only acts under a raised alert. -/
theorem step_preserves_surv_imp_alert (s : WorkflowState) (e : Event)
    (h : s.show_surveillance = true → s.alert_triggered = true) :
    (step s e).show_surveillance = true → (step s e).alert_triggered = true := by
  cases e with
  | exec id =>
      intro hh
      simp [step, executeCOA] at hh
  | monitorRun =>
      intro hh
      by_cases hc : s.coa_selected.isSome
      · simp [step, monitoring_pass, hc]
      · simp only [step, monitoring_pass, hc, if_false] at hh ⊢
        exact h hh
  | reveal =>
      intro hh
      by_cases hb : s.alert_triggered
      · simp [step, revealSurveillance, hb]
      · simp only [step, revealSurveillance, hb, if_false] at hh ⊢
        exact h hh

theorem foldl_preserves_surv_imp_alert (es : List Event) (s : WorkflowState)
    (h : s.show_surveillance = true → s.alert_triggered = true) :
    (es.foldl step s).show_surveillance = true →
      (es.foldl step s).alert_triggered = true := by
  induction es generalizing s with
  | nil => exact h
  | cons e es ih =>
      exact ih (step s e) (step_preserves_surv_imp_alert s e h)

/-- C3: in every reachable state of a session, `show_surveillance` is only
true when `alert_triggered` is; invoking `revealSurveillance` with the
alert down leaves the state unchanged, and invoking it with the alert up
sets `show_surveillance`. -/
theorem surveillance_only_after_alert (es : List Event) (t u : WorkflowState)
    (hrun : (run es).show_surveillance = true)
    (ht : t.alert_triggered = false)
    (hu : u.alert_triggered = true) :
    (run es).alert_triggered = true ∧
    revealSurveillance t = t ∧
    (revealSurveillance u).show_surveillance = true := by
  refine ⟨?_, ?_, ?_⟩
  · exact foldl_preserves_surv_imp_alert es initState (by intro hh; cases hh) hrun
  · simp [revealSurveillance, ht]
  · simp [revealSurveillance, hu]

theorem surveillance_only_after_alert_witness :
    ((run [Event.exec "COA 1", Event.monitorRun,
        Event.reveal]).show_surveillance = true ∧
      initState.alert_triggered = false ∧
      (run [Event.exec "COA 1", Event.monitorRun]).alert_triggered = true) ∧
    ((run [Event.exec "COA 1", Event.monitorRun,
        Event.reveal]).alert_triggered = true ∧
      revealSurveillance initState = initState ∧
      (revealSurveillance
        (run [Event.exec "COA 1", Event.monitorRun])).show_surveillance = true) :=
  ⟨by decide,
    surveillance_only_after_alert [Event.exec "COA 1", Event.monitorRun, Event.reveal]
      initState (run [Event.exec "COA 1", Event.monitorRun])
      (by decide) (by decide) (by decide)⟩

/-- C4: on the three recognized threat levels the code's weight map gives
3, 2, 1 and the scatter color gives red, orange, green; both are (Lean)
functions of the threat level alone, hence pure. -/
theorem threat_encoder_recognized_levels :
    threat_level_weights "High" = some 3 ∧
    threat_level_weights "Medium" = some 2 ∧
    threat_level_weights "Low" = some 1 ∧
    get_color "High" = "255, 0, 0, 160" ∧
    get_color "Medium" = "255, 165, 0, 160" ∧
    get_color "Low" = "0, 128, 0, 160" := by
  decide

/-- C5 (code evaluation at the failing input): on the unrecognized level
"Critical" the code raises no error at all: the weight map silently yields
a missing value (NaN, embedded `none`) and the scatter color falls back to
green, while the spec's encoder fails on both - contradicting the claim
that both `weight` and `color` fail with `UnrecognizedThreatLevel`. -/
theorem unrecognized_level_no_error :
    threat_level_weights "Critical" = none ∧
    get_color "Critical" = "0, 128, 0, 160" ∧
    spec_threat_weight "Critical" = none ∧
    spec_threat_color "Critical" = none := by
  decide

/-- C6 (code evaluation at the failing input): a record carrying the
unrecognized level "Critical" is NOT excluded from the constructed layer:
in Scatter mode it yields a point (with the guessed green color), and in
Heatmap mode it stays in the layer data with a missing weight. -/
theorem unrecognized_record_not_excluded :
    (scatter_points [⟨5, 118, "ghost contact", "Critical", "observe"⟩]).length = 1 ∧
    (scatter_points [⟨5, 118, "ghost contact", "Critical", "observe"⟩]).map
      ScatterPoint.color = ["0, 128, 0, 160"] ∧
    (heatmap_points [⟨5, 118, "ghost contact", "Critical", "observe"⟩]).length = 1 ∧
    (heatmap_points [⟨5, 118, "ghost contact", "Critical", "observe"⟩]).map
      HeatPoint.weight = [none] := by
  decide

/-- C7: the loader returns at most the cap (100) records, and the result
is exactly the first rows of the source in original order: position `i` of
the result equals position `i` of the source for `i` below the cap, and
nothing sits beyond the cap. -/
theorem load_cap_and_order (rows : List AnomalyRecord) :
    (load_drone_anomalies rows).length ≤ 100 ∧
    ∀ i : Nat, (load_drone_anomalies rows)[i]? =
      if i < 100 then rows[i]? else none := by
  constructor
  · simp [load_drone_anomalies, load_cap]
  · intro i
    by_cases hi : i < 100
    · simp [load_drone_anomalies, load_cap, hi, List.getElem?_take_of_lt]
    · have hlen : (load_drone_anomalies rows).length ≤ i := by
        have : (load_drone_anomalies rows).length ≤ 100 := by
          simp [load_drone_anomalies, load_cap]
        omega
      simp [hi, List.getElem?_eq_none hlen]

/-- C8: two consecutive calls to the cached loader with the same source
identity return equal sequences, and the second call performs zero source
reads (it is served from the cache). -/
theorem cached_load_stable (fs : String → List AnomalyRecord)
    (cache : List (String × List AnomalyRecord)) (path : String) :
    (cached_load fs (cached_load fs cache path).2.1 path).1 =
      (cached_load fs cache path).1 ∧
    (cached_load fs (cached_load fs cache path).2.1 path).2.2 = 0 := by
  cases h : cache.lookup path with
  | some v => simp [cached_load, h]
  | none => simp [cached_load, h]

/-- C9: for a record set whose levels are all recognized (the data-model
invariant), Scatter mode yields exactly one point per record, whose color
is the spec encoder's color of that record's level, whose radius is the
fixed 1000, and whose tooltip payload carries the record's anomaly type,
threat level and recommended action; and in Heatmap mode (one point per
record as well) every point's weight is the spec encoder's weight. -/
theorem build_matches_encoder (records : List AnomalyRecord)
    (hall : ∀ r ∈ records, r.threat_level = "High" ∨ r.threat_level = "Medium" ∨
      r.threat_level = "Low") :
    (scatter_points records).length = records.length ∧
    (heatmap_points records).length = records.length ∧
    (scatter_points records).map (fun p => some p.color) =
      records.map (fun r => spec_threat_color r.threat_level) ∧
    (scatter_points records).map ScatterPoint.radius =
      records.map (fun _ => 1000) ∧
    (scatter_points records).map ScatterPoint.anomaly_type =
      records.map AnomalyRecord.anomaly_type ∧
    (scatter_points records).map ScatterPoint.threat_level =
      records.map AnomalyRecord.threat_level ∧
    (scatter_points records).map ScatterPoint.recommended_action =
      records.map AnomalyRecord.recommended_action ∧
    (heatmap_points records).map HeatPoint.weight =
      records.map (fun r => spec_threat_weight r.threat_level) := by
  refine ⟨by simp [scatter_points], by simp [heatmap_points], ?_, ?_, ?_, ?_, ?_, ?_⟩
  · simp only [scatter_points, List.map_map]
    refine List.map_congr_left ?_
    intro r hr
    rcases hall r hr with h | h | h <;>
      simp [Function.comp, get_color, spec_threat_color, h]
  · simp only [scatter_points, List.map_map]
    exact List.map_congr_left fun r hr => rfl
  · simp only [scatter_points, List.map_map]
    exact List.map_congr_left fun r hr => rfl
  · simp only [scatter_points, List.map_map]
    exact List.map_congr_left fun r hr => rfl
  · simp only [scatter_points, List.map_map]
    exact List.map_congr_left fun r hr => rfl
  · simp only [heatmap_points, List.map_map]
    exact List.map_congr_left fun r hr => rfl

theorem build_matches_encoder_witness :
    (∀ r ∈ [(⟨5, 118, "jammer", "High", "engage"⟩ : AnomalyRecord),
        ⟨6, 117, "loiter", "Low", "observe"⟩,
        ⟨4, 119, "intrusion", "Medium", "investigate"⟩],
      r.threat_level = "High" ∨ r.threat_level = "Medium" ∨
        r.threat_level = "Low") ∧
    (scatter_points [(⟨5, 118, "jammer", "High", "engage"⟩ : AnomalyRecord),
        ⟨6, 117, "loiter", "Low", "observe"⟩,
        ⟨4, 119, "intrusion", "Medium", "investigate"⟩]).map
      (fun p => some p.color) =
      [(⟨5, 118, "jammer", "High", "engage"⟩ : AnomalyRecord),
        ⟨6, 117, "loiter", "Low", "observe"⟩,
        ⟨4, 119, "intrusion", "Medium", "investigate"⟩].map
        (fun r => spec_threat_color r.threat_level) :=
  ⟨by decide,
    (build_matches_encoder
      [(⟨5, 118, "jammer", "High", "engage"⟩ : AnomalyRecord),
        ⟨6, 117, "loiter", "Low", "observe"⟩,
        ⟨4, 119, "intrusion", "Medium", "investigate"⟩]
      (by decide)).2.2.1⟩

/-- C10: any point of a Scatter layer whose threat level is neither
exactly "High" nor exactly "Medium" - unrecognized levels included - gets
the green color, the same color the "Low" encoding gets, so such records
are visually indistinguishable from Low-threat ones. -/
theorem scatter_fallback_green (records : List AnomalyRecord) (p : ScatterPoint)
    (hp : p ∈ scatter_points records)
    (h1 : p.threat_level ≠ "High") (h2 : p.threat_level ≠ "Medium") :
    p.color = "0, 128, 0, 160" ∧ p.color = get_color "Low" := by
  simp only [scatter_points, List.mem_map] at hp
  obtain ⟨r, _, rfl⟩ := hp
  simp only at h1 h2 ⊢
  constructor
  · simp [get_color, h1, h2]
  · simp [get_color, h1, h2]

theorem scatter_fallback_green_witness :
    ((⟨(118, 5), "0, 128, 0, 160", 1000, "ghost contact", "Critical",
        "observe"⟩ : ScatterPoint) ∈
      scatter_points [⟨5, 118, "ghost contact", "Critical", "observe"⟩] ∧
      ("Critical" : String) ≠ "High" ∧ ("Critical" : String) ≠ "Medium") ∧
    ((⟨(118, 5), "0, 128, 0, 160", 1000, "ghost contact", "Critical",
        "observe"⟩ : ScatterPoint).color = "0, 128, 0, 160" ∧
      (⟨(118, 5), "0, 128, 0, 160", 1000, "ghost contact", "Critical",
        "observe"⟩ : ScatterPoint).color = get_color "Low") :=
  ⟨by decide,
    scatter_fallback_green [⟨5, 118, "ghost contact", "Critical", "observe"⟩]
      ⟨(118, 5), "0, 128, 0, 160", 1000, "ghost contact", "Critical", "observe"⟩
      (by decide) (by decide) (by decide)⟩

end DroneMonitoring
